import Mathlib

/-!
Verification of the Grape.ai build worker (`builder/worker.py`).

The worker is a sequential pipeline: classify the project, maybe run a
Node-style build, locate a build-output directory, and stage the result into
a deploy directory, guaranteeing an `index.html` at the end.

The embedding is shallow:
* the file system visible to the worker is a tree of named entries
  (`FSTree`); the project path and the deploy path are modelled as two
  separate stores, matching the spec's data model (the project is a
  read-only input, the deploy target is destructively owned by the run);
* external command execution is modelled by an oracle (`ExecOutcome`) fed
  to `run_command`, which mirrors the Python try/except structure;
* JSON parsing of `package.json` is external, so its outcome is an oracle
  (`Option Pkg`) consulted only when the manifest file exists;
* file-system primitives are total, matching the spec's stance that the
  file system is an external collaborator providing these operations
  (real-world I/O failures during staging are out of scope).

For the staging-idempotence claim, `copy_to_deploy` is additionally
modelled over a single global store of files keyed by path
(`FileStore`), so that the delete-then-copy sequence and the aliasing
between source and target are visible.
-/

/-- A file-system tree: a file with contents, or a directory with a list of
named entries. An empty directory is `dir []`. -/
inductive FSTree where
  | file (contents : String) : FSTree
  | dir (entries : List (String × FSTree)) : FSTree
deriving Repr

/-- A relative path: a list of path components. -/
abbrev FsPath := List String

/-- Look a name up in a directory's entry list (first match, like a real
directory where names are unique). -/
def lookupEntry : List (String × FSTree) → String → Option FSTree
  | [], _ => none
  | (m, u) :: es, n => if m = n then some u else lookupEntry es n

/-- Follow a path down a tree; `some` exactly when the path exists
(`os.path.exists` semantics). -/
def FSTree.lookup : FSTree → FsPath → Option FSTree
  | t, [] => some t
  | FSTree.file _, _ :: _ => none
  | FSTree.dir es, n :: p =>
    match lookupEntry es n with
    | some u => u.lookup p
    | none => none

/-- Write or overwrite one entry of a directory listing, keeping the others. -/
def setEntry : List (String × FSTree) → String → FSTree → List (String × FSTree)
  | [], n, t => [(n, t)]
  | (m, u) :: es, n, t => if m = n then (n, t) :: es else (m, u) :: setEntry es n t

/-- Boolean `os.path.exists(join(root, p))`. -/
def path_exists (root : FSTree) (p : FsPath) : Bool :=
  (root.lookup p).isSome

/-- Boolean `os.path.isdir(join(root, p))`. -/
def path_isdir (root : FSTree) (p : FsPath) : Bool :=
  match root.lookup p with
  | some (FSTree.dir _) => true
  | _ => false

/-- `os.listdir(join(root, p))`: the entry names of a directory, `[]` when the
path is not a directory (the worker only calls it on directories). -/
def path_listdir (root : FSTree) (p : FsPath) : List String :=
  match root.lookup p with
  | some (FSTree.dir es) => es.map Prod.fst
  | _ => []

/-- What happened when the operating system ran a command: it completed with
an exit code and captured output, it hit the 600-second timeout, or it failed
to execute at all (e.g. executable not found), with a description. -/
inductive ExecOutcome where
  | completed (returncode : Int) (stdout stderr : String) : ExecOutcome
  | timedOut : ExecOutcome
  | failed (description : String) : ExecOutcome

/-- `run_command` (worker.py lines 21-38): returns `(success, stdout, stderr)`.
It is a total function — the Python catches `TimeoutExpired` and every other
exception, so it never raises to its caller. Success is exactly
`returncode == 0`. -/
def run_command : ExecOutcome → Bool × String × String
  | ExecOutcome.completed rc out err => (rc == 0, out, err)
  | ExecOutcome.timedOut => (false, "", "Build timed out after 10 minutes")
  | ExecOutcome.failed e => (false, "", e)

/-- The parsed view of `package.json` that classification consults: the key
sets of its `scripts` and `dependencies` mappings. -/
structure Pkg where
  scripts : List String
  dependencies : List String

/-- The if/elif classification chain run on a successfully parsed manifest
(worker.py lines 52-61). -/
def classify_pkg (pkg : Pkg) : String :=
  if pkg.dependencies.contains "next" then "nextjs"
  else if pkg.dependencies.contains "vite" || pkg.scripts.contains "build" then "vite"
  else if pkg.dependencies.contains "react-scripts" then "cra"
  else if pkg.scripts.contains "build" then "node"
  else "static"

/-- `detect_project_type` (worker.py lines 40-68). `parse_result` is the
outcome of `json.load` on `package.json`, consulted only when that file
exists; `none` models a parse failure, which logs a warning and falls
through to the `index.html` check, exactly like the bare `except`. -/
def detect_project_type (proj : FSTree) (parse_result : Option Pkg) : String :=
  if (FSTree.lookup proj ["package.json"]).isSome then
    match parse_result with
    | some pkg => classify_pkg pkg
    | none =>
      if (FSTree.lookup proj ["index.html"]).isSome then "static" else "unknown"
  else
    if (FSTree.lookup proj ["index.html"]).isSome then "static" else "unknown"

/-- The outcomes of the three external commands `build_node_project` can
issue, in program order: `which npm`, `npm install`, `npm run build`. -/
structure BuildEnv where
  which_npm : ExecOutcome
  npm_install : ExecOutcome
  npm_run_build : ExecOutcome

/-- `build_node_project` (worker.py lines 70-92): returns
`(success, message)`. A failed `npm run build` is deliberately reported as
success with a fixed message; only a missing npm or a failed install are
reported as failure. -/
def build_node_project (env : BuildEnv) : Bool × String :=
  let npm_check := (run_command env.which_npm).1
  if !npm_check then (false, "npm not available")
  else
    let r := run_command env.npm_install
    if !r.1 then (false, "npm install failed: " ++ r.2.2)
    else
      let r2 := run_command env.npm_run_build
      if !r2.1 then (true, "No build script found, serving source files")
      else (true, "Build completed successfully")

/-- The candidate output directories of `find_build_output`
(worker.py lines 96-104), in source order. -/
def candidates : List FsPath :=
  [["dist"], ["build"], ["out"], [".next", "standalone"], [".next", "out"],
   ["public"], ["_site"]]

/-- The loop body of `find_build_output` (worker.py lines 106-114): the first
candidate that exists, is a directory and has a non-empty listing. -/
def find_build_output_from (proj : FSTree) : List FsPath → Option FsPath
  | [] => none
  | c :: cs =>
    if path_exists proj c && path_isdir proj c then
      if !(path_listdir proj c).isEmpty then some c
      else find_build_output_from proj cs
    else find_build_output_from proj cs

/-- `find_build_output` (worker.py lines 94-114): returns the matching
candidate path (the Python returns the joined full path), or `none`. -/
def find_build_output (proj : FSTree) : Option FsPath :=
  find_build_output_from proj candidates

/-- Modelled from the spec's words (§4.5), for comparison with
`find_build_output`: "the first candidate in the exact order ... that
exists, is a directory, and has at least one entry; absent if no candidate
qualifies". -/
def locator_spec (proj : FSTree) : Option FsPath :=
  candidates.find? (fun c =>
    path_exists proj c && path_isdir proj c && !(path_listdir proj c).isEmpty)

/-- The tree the located output path denotes, consumed by the stager. -/
def resolve_output (proj : FSTree) : Option FSTree :=
  match find_build_output proj with
  | some c => FSTree.lookup proj c
  | none => none

/-- The HTML document `create_fallback_page` writes (worker.py lines
128-165), with the message interpolated verbatim where the f-string puts
`{message}`. Literal braces of the CSS are the doubled braces of the
f-string. -/
def fallback_html (message : String) : String :=
  "<!DOCTYPE html>\n<html lang=\"en\">\n<head>\n    <meta charset=\"UTF-8\">\n    <meta name=\"viewport\" content=\"width=device-width, initial-scale=1.0\">\n    <title>Grape.ai Deployment</title>\n    <style>\n        body \x7b\n            font-family: system-ui, -apple-system, sans-serif;\n            margin: 0;\n            padding: 40px;\n            background: linear-gradient(135deg, #667eea 0%, #764ba2 100%);\n            color: white;\n            min-height: 100vh;\n            display: flex;\n            align-items: center;\n            justify-content: center;\n        \x7d\n        .container \x7b\n            text-align: center;\n            background: rgba(255,255,255,0.1);\n            padding: 40px;\n            border-radius: 20px;\n            backdrop-filter: blur(10px);\n        \x7d\n        h1 \x7b margin: 0 0 20px 0; \x7d\n        .grape \x7b font-size: 48px; \x7d\n    </style>\n</head>\n<body>\n    <div class=\"container\">\n        <div class=\"grape\">🍇</div>\n        <h1>Grape.ai</h1>\n        <p>" ++ message ++ "</p>\n        <p><small>Powered by Grape.ai hosting platform</small></p>\n    </div>\n</body>\n</html>"

/-- `create_fallback_page` (worker.py lines 124-168): `os.makedirs(...,
exist_ok=True)` keeps an existing deploy directory's entries; then
`index.html` is written (overwriting any previous entry of that name).
`deploy` is the current contents of the deploy path, `none` when it does
not exist. -/
def create_fallback_page (deploy : Option FSTree) (message : String) : FSTree :=
  let es :=
    match deploy with
    | some (FSTree.dir es) => es
    | _ => []
  FSTree.dir (setEntry es "index.html" (FSTree.file (fallback_html message)))

/-- The staging decision of `main` (worker.py lines 199-209): copy the
located build output, else copy the whole project when it has a root
`index.html`, else synthesize a fallback page whose message depends on the
build outcome. A wholesale copy makes the deploy contents exactly the
copied tree (the old deploy contents are deleted first). -/
def stage_deploy (proj : FSTree) (deploy0 : Option FSTree)
    (build_success : Bool) (build_message : String) : FSTree :=
  match resolve_output proj with
  | some t => t
  | none =>
    if path_exists proj ["index.html"] then proj
    else if build_success then
      create_fallback_page deploy0 "Project built but no output found"
    else
      create_fallback_page deploy0 ("Build failed: " ++ build_message)

/-- The final safety net of `main` (worker.py lines 211-214): if the deploy
contents still lack `index.html`, synthesize a fallback page with message
"Deployment completed". -/
def ensure_index (d : FSTree) : FSTree :=
  if path_exists d ["index.html"] then d
  else create_fallback_page (some d) "Deployment completed"

/-- The project types for which `main` runs the Node build
(worker.py line 193). -/
def buildable : List String := ["nextjs", "vite", "cra", "node"]

/-- One invocation's inputs: `argv` is `sys.argv` (script name included);
`project` is the contents at the project path (`none` when the path does
not exist); `parse_result` is the manifest-parsing oracle; `build` holds
the command outcomes; `deploy0` is the initial contents at the deploy
path. -/
structure Env where
  argv : List String
  project : Option FSTree
  parse_result : Option Pkg
  build : BuildEnv
  deploy0 : Option FSTree

/-- What a run leaves behind: the process exit status and the final
contents at the deploy path. -/
structure RunResult where
  exitCode : Nat
  deploy : Option FSTree

/-- `main` (worker.py lines 170-216): argument check, project-path check,
classification, conditional build, artifact location, staging, safety net. -/
def Worker.main (env : Env) : RunResult :=
  if env.argv.length ≠ 3 then ⟨1, env.deploy0⟩
  else
    match env.project with
    | none => ⟨1, env.deploy0⟩
    | some proj =>
      let project_type := detect_project_type proj env.parse_result
      let b :=
        if buildable.contains project_type then build_node_project env.build
        else (true, "")
      ⟨0, some (ensure_index (stage_deploy proj env.deploy0 b.1 b.2))⟩

/-! ### Basic lemmas about the file-system model -/

/-- Looking up the name just written by `setEntry` finds the written tree. -/
theorem lookupEntry_setEntry (es : List (String × FSTree)) (n : String) (t : FSTree) :
    lookupEntry (setEntry es n t) n = some t := by
  induction es with
  | nil => simp [setEntry, lookupEntry]
  | cons e es ih =>
    obtain ⟨m, u⟩ := e
    by_cases h : m = n
    · simp [setEntry, lookupEntry, h]
    · simp [setEntry, lookupEntry, h, ih]

/-- A synthesized fallback page always carries `index.html` with the
rendered message. -/
theorem lookup_create_fallback (d0 : Option FSTree) (msg : String) :
    FSTree.lookup (create_fallback_page d0 msg) ["index.html"]
      = some (FSTree.file (fallback_html msg)) := by
  unfold create_fallback_page
  simp [FSTree.lookup, lookupEntry_setEntry]

/-- After the safety net, `index.html` exists at the deploy target. -/
theorem ensure_index_has_index (d : FSTree) :
    path_exists (ensure_index d) ["index.html"] = true := by
  cases h : path_exists d ["index.html"] with
  | true => simp [ensure_index, h]
  | false =>
    simp only [ensure_index, path_exists] at h ⊢
    simp [h, lookup_create_fallback]

/-! ### C6: the command runner's result shape -/

/-- Claim C6: the command runner never raises to its caller (it is a total
function on execution outcomes); on timeout it returns
`(false, "", "Build timed out after 10 minutes")`; on any other execution
failure it returns `(false, "", description)`; otherwise success is true
exactly when the process exit code is zero, with stdout and stderr passed
through. -/
theorem run_command_result_shape :
    run_command ExecOutcome.timedOut = (false, "", "Build timed out after 10 minutes")
    ∧ (∀ e : String, run_command (ExecOutcome.failed e) = (false, "", e))
    ∧ (∀ (rc : Int) (out err : String),
        run_command (ExecOutcome.completed rc out err) = (rc == 0, out, err))
    ∧ (∀ (rc : Int) (out err : String),
        (run_command (ExecOutcome.completed rc out err)).1 = true ↔ rc = 0) := by
  refine ⟨rfl, fun e => rfl, fun rc out err => rfl, fun rc out err => ?_⟩
  simp [run_command]

/-! ### C5: a failed build command is a soft success -/

/-- Claim C5: when the `which npm` probe and `npm install` succeed but
`npm run build` fails, the Node-style build procedure returns success with
exactly the message "No build script found, serving source files". -/
theorem build_node_soft_build_failure (env : BuildEnv)
    (hnpm : (run_command env.which_npm).1 = true)
    (hinst : (run_command env.npm_install).1 = true)
    (hbuild : (run_command env.npm_run_build).1 = false) :
    build_node_project env = (true, "No build script found, serving source files") := by
  simp [build_node_project, hnpm, hinst, hbuild]

/-- Witness for C5 at a concrete command environment: the probe and the
install exit 0, the build exits 1. -/
theorem build_node_soft_build_failure_witness :
    (run_command (ExecOutcome.completed 0 "" "")).1 = true
    ∧ (run_command (ExecOutcome.completed 1 "" "err")).1 = false
    ∧ build_node_project
        ⟨ExecOutcome.completed 0 "" "", ExecOutcome.completed 0 "" "",
         ExecOutcome.completed 1 "" "err"⟩
        = (true, "No build script found, serving source files") :=
  ⟨by decide, by decide,
   build_node_soft_build_failure
     ⟨ExecOutcome.completed 0 "" "", ExecOutcome.completed 0 "" "",
      ExecOutcome.completed 1 "" "err"⟩
     (by decide) (by decide) (by decide)⟩

/-! ### C3 and C9: the classification chain -/

/-- Counterexample to claim C3: a manifest whose `scripts` contain `build`
and whose `dependencies` contain none of `next`, `vite`, `react-scripts`
classifies as `vite`, not `node` — the `build`-script test inside the
`vite` branch fires first. -/
theorem detect_build_script_only_is_vite :
    detect_project_type
        (FSTree.dir [("package.json",
          FSTree.file "\x7b\"scripts\": \x7b\"build\": \"x\"\x7d\x7d")])
        (some ⟨["build"], []⟩)
      = "vite"
    ∧ ("vite" : String) ≠ "node" := by
  constructor
  · rfl
  · decide

/-- Claim C3 as amended: for every manifest whose `scripts` contain `build`
and whose `dependencies` contain none of `next`, `vite`, `react-scripts`,
classification returns `vite` (the code's `build`-in-scripts test sits in
the `vite` branch, ahead of the unreachable `node` branch). -/
theorem detect_build_script_only (proj : FSTree) (pkg : Pkg)
    (hman : (FSTree.lookup proj ["package.json"]).isSome = true)
    (hb : "build" ∈ pkg.scripts)
    (hn : "next" ∉ pkg.dependencies)
    (hv : "vite" ∉ pkg.dependencies)
    (_hr : "react-scripts" ∉ pkg.dependencies) :
    detect_project_type proj (some pkg) = "vite" := by
  simp [detect_project_type, hman, classify_pkg, hb, hn, hv]

/-- Witness for the amended C3 at a concrete project and manifest. -/
theorem detect_build_script_only_witness :
    detect_project_type
        (FSTree.dir [("package.json",
          FSTree.file "\x7b\"scripts\": \x7b\"build\": \"x\"\x7d\x7d")])
        (some ⟨["build"], []⟩)
      = "vite" :=
  detect_build_script_only
    (FSTree.dir [("package.json",
      FSTree.file "\x7b\"scripts\": \x7b\"build\": \"x\"\x7d\x7d")])
    ⟨["build"], []⟩ rfl (by decide) (by decide) (by decide) (by decide)

/-- Claim C9: classification never returns `node` — the `node` branch is
dead because `'build' in scripts` already fires the `vite` branch — so the
result is always one of `nextjs`, `vite`, `cra`, `static`, `unknown`. -/
theorem detect_never_node (proj : FSTree) (parse_result : Option Pkg) :
    detect_project_type proj parse_result ≠ "node"
    ∧ detect_project_type proj parse_result
        ∈ (["nextjs", "vite", "cra", "static", "unknown"] : List String) := by
  have hpkg : ∀ pkg : Pkg, classify_pkg pkg ≠ "node"
      ∧ classify_pkg pkg ∈ (["nextjs", "vite", "cra", "static", "unknown"] : List String) := by
    intro pkg
    by_cases hn : "next" ∈ pkg.dependencies <;>
      by_cases hv : "vite" ∈ pkg.dependencies <;>
        by_cases hb : "build" ∈ pkg.scripts <;>
          by_cases hr : "react-scripts" ∈ pkg.dependencies <;>
            simp [classify_pkg, hn, hv, hb, hr]
  unfold detect_project_type
  by_cases hman : (FSTree.lookup proj ["package.json"]).isSome
  · cases parse_result with
    | some pkg => simpa [hman] using hpkg pkg
    | none =>
      by_cases hih : (FSTree.lookup proj ["index.html"]).isSome <;> simp [hman, hih]
  · by_cases hih : (FSTree.lookup proj ["index.html"]).isSome <;> simp [hman, hih]

/-! ### C4: the artifact locator -/

/-- The locator loop computes the first qualifying candidate of its list. -/
theorem find_build_output_from_eq_find (proj : FSTree) (cs : List FsPath) :
    find_build_output_from proj cs
      = cs.find? (fun c =>
          path_exists proj c && path_isdir proj c && !(path_listdir proj c).isEmpty) := by
  induction cs with
  | nil => rfl
  | cons c cs ih =>
    cases he : path_exists proj c <;>
      cases hd : path_isdir proj c <;>
        cases hl : (path_listdir proj c).isEmpty <;>
          simp [find_build_output_from, List.find?, he, hd, hl, ih]

/-- Claim C4: the artifact locator returns exactly the first candidate, in
the order `dist`, `build`, `out`, `.next/standalone`, `.next/out`,
`public`, `_site`, that exists, is a directory and has at least one entry
(absent when none qualifies); in particular a non-empty `dist` always wins,
and an existing-but-empty `dist` is skipped in favor of a later non-empty
candidate such as `build`. -/
theorem find_build_output_first_match :
    (∀ proj : FSTree, find_build_output proj = locator_spec proj)
    ∧ (∀ proj : FSTree,
        path_isdir proj ["dist"] = true → (path_listdir proj ["dist"]).isEmpty = false →
        find_build_output proj = some ["dist"])
    ∧ (∀ proj : FSTree,
        path_isdir proj ["dist"] = true → path_listdir proj ["dist"] = [] →
        path_isdir proj ["build"] = true → (path_listdir proj ["build"]).isEmpty = false →
        find_build_output proj = some ["build"]) := by
  have hex : ∀ (proj : FSTree) (p : FsPath), path_isdir proj p = true → path_exists proj p = true := by
    intro proj p h
    unfold path_isdir at h
    unfold path_exists
    cases hl : FSTree.lookup proj p with
    | none => rw [hl] at h; simp at h
    | some t => simp
  refine ⟨fun proj => find_build_output_from_eq_find proj candidates, ?_, ?_⟩
  · intro proj hd hl
    simp [find_build_output, candidates, find_build_output_from, hex proj ["dist"] hd, hd, hl]
  · intro proj hd hl hbd hbl
    simp [find_build_output, candidates, find_build_output_from,
      hex proj ["dist"] hd, hd, hl, hex proj ["build"] hbd, hbd, hbl]

/-- Witness for C4 at a concrete project: `dist` exists but is empty, so it
is skipped and the non-empty `build` is returned. -/
theorem find_build_output_first_match_witness :
    find_build_output
        (FSTree.dir [("dist", FSTree.dir []),
                     ("build", FSTree.dir [("app.js", FSTree.file "x")])])
      = some ["build"] :=
  find_build_output_first_match.2.2
    (FSTree.dir [("dist", FSTree.dir []),
                 ("build", FSTree.dir [("app.js", FSTree.file "x")])])
    rfl rfl rfl rfl

/-! ### C1, C2, C8, C10: the pipeline orchestrator -/

/-- The safety net leaves a freshly synthesized fallback page untouched:
fallback synthesis always creates `index.html`. -/
theorem ensure_index_fallback (d0 : Option FSTree) (msg : String) :
    ensure_index (create_fallback_page d0 msg) = create_fallback_page d0 msg := by
  simp [ensure_index, path_exists, lookup_create_fallback]

/-- Claim C1: every run with the correct argument count and an existing
project path ends with the deploy target containing `index.html`,
regardless of classification, build outcome or artifact location. -/
theorem pipeline_deploy_has_index (env : Env)
    (hargs : env.argv.length = 3) (hproj : env.project.isSome = true) :
    ∃ d, (Worker.main env).deploy = some d ∧ path_exists d ["index.html"] = true := by
  obtain ⟨proj, hp⟩ := Option.isSome_iff_exists.mp hproj
  simp only [Worker.main, hargs, ne_eq, not_true_eq_false, if_false, hp]
  exact ⟨_, rfl, ensure_index_has_index _⟩

/-- Witness for C1 at a concrete invocation: a static project holding just
an `index.html`. -/
theorem pipeline_deploy_has_index_witness :
    ∃ d, (Worker.main ⟨["worker.py", "site", "deploy"],
        some (FSTree.dir [("index.html", FSTree.file "<p>hi</p>")]), none,
        ⟨ExecOutcome.timedOut, ExecOutcome.timedOut, ExecOutcome.timedOut⟩,
        none⟩).deploy = some d
      ∧ path_exists d ["index.html"] = true :=
  pipeline_deploy_has_index _ rfl rfl

/-- Counterexample to claim C2: for an empty project directory the pipeline
synthesizes the fallback page in the no-output branch, whose message is
"Project built but no output found"; the final safety net then finds
`index.html` present and never rewrites it to "Deployment completed". -/
theorem empty_project_not_deployment_completed :
    (∃ d, (Worker.main ⟨["worker.py", "proj", "dep"], some (FSTree.dir []), none,
        ⟨ExecOutcome.timedOut, ExecOutcome.timedOut, ExecOutcome.timedOut⟩,
        none⟩).deploy = some d
      ∧ FSTree.lookup d ["index.html"]
          = some (FSTree.file (fallback_html "Project built but no output found")))
    ∧ fallback_html "Project built but no output found"
        ≠ fallback_html "Deployment completed" := by
  refine ⟨⟨_, rfl, rfl⟩, ?_⟩
  set_option maxRecDepth 8192 in decide

/-- Claim C2 as amended: for an empty project directory (no manifest, no
`index.html`), the pipeline ends with the deploy target containing a
synthesized fallback page whose embedded message is
"Project built but no output found". -/
theorem empty_project_fallback_message (env : Env)
    (hargs : env.argv.length = 3) (hproj : env.project = some (FSTree.dir [])) :
    ∃ d, (Worker.main env).deploy = some d
      ∧ FSTree.lookup d ["index.html"]
          = some (FSTree.file (fallback_html "Project built but no output found")) := by
  have hdet : detect_project_type (FSTree.dir []) env.parse_result = "unknown" := rfl
  have hstage : stage_deploy (FSTree.dir []) env.deploy0 true ""
      = create_fallback_page env.deploy0 "Project built but no output found" := rfl
  simp only [Worker.main, hargs, ne_eq, not_true_eq_false, if_false, hproj, hdet]
  refine ⟨_, rfl, ?_⟩
  have hb : buildable.contains "unknown" = false := rfl
  simp only [hb, Bool.false_eq_true, if_false]
  rw [hstage, ensure_index_fallback, lookup_create_fallback]

/-- Witness for the amended C2 at a concrete invocation. -/
theorem empty_project_fallback_message_witness :
    ∃ d, (Worker.main ⟨["worker.py", "proj", "dep"], some (FSTree.dir []), some ⟨[], []⟩,
        ⟨ExecOutcome.completed 0 "" "", ExecOutcome.completed 0 "" "",
         ExecOutcome.completed 0 "" ""⟩, none⟩).deploy = some d
      ∧ FSTree.lookup d ["index.html"]
          = some (FSTree.file (fallback_html "Project built but no output found")) :=
  empty_project_fallback_message _ rfl rfl

/-- Claim C8: the process exits with status 1 exactly when the argument
count is wrong or the project path does not exist; every other run —
including runs whose build step failed — exits with status 0 (the exit
code is always 0 or 1). -/
theorem exit_status_characterization (env : Env) :
    ((Worker.main env).exitCode = 1 ↔ (env.argv.length ≠ 3 ∨ env.project = none))
    ∧ ((Worker.main env).exitCode = 1 ∨ (Worker.main env).exitCode = 0) := by
  by_cases hargs : env.argv.length = 3
  · cases hp : env.project with
    | none => simp [Worker.main, hargs, hp]
    | some proj => simp [Worker.main, hargs, hp]
  · simp [Worker.main, hargs]

/-- Claim C10: when the no-output fallback branch runs (no artifact found
and no root `index.html`), the final safety net never rewrites the page,
because fallback synthesis always creates `deployTarget/index.html`; and
the safety net can fire at all only after the pipeline copied a located
artifact directory whose top level lacked `index.html` (the project-root
copy branch requires a root `index.html`, so it can never leave the target
without one). -/
theorem fallback_branch_never_rewritten (proj : FSTree) (d0 : Option FSTree)
    (bs : Bool) (bm : String) :
    (resolve_output proj = none → path_exists proj ["index.html"] = false →
      ensure_index (stage_deploy proj d0 bs bm) = stage_deploy proj d0 bs bm)
    ∧ (path_exists (stage_deploy proj d0 bs bm) ["index.html"] = false →
      ∃ t, resolve_output proj = some t ∧ path_exists t ["index.html"] = false) := by
  constructor
  · intro hres hih
    cases bs <;> simp [stage_deploy, hres, hih, ensure_index_fallback]
  · intro hmiss
    cases hres : resolve_output proj with
    | some t =>
      refine ⟨t, rfl, ?_⟩
      simpa [stage_deploy, hres] using hmiss
    | none =>
      exfalso
      simp only [stage_deploy, hres] at hmiss
      cases hih : path_exists proj ["index.html"] with
      | true => simp [hih] at hmiss
      | false =>
        simp only [hih, Bool.false_eq_true, if_false] at hmiss
        cases bs <;>
          simp [path_exists, lookup_create_fallback] at hmiss

/-- Witness for C10 at a concrete project where the fallback branch runs:
the empty project. -/
theorem fallback_branch_never_rewritten_witness :
    ensure_index (stage_deploy (FSTree.dir []) none true "")
      = stage_deploy (FSTree.dir []) none true "" :=
  (fallback_branch_never_rewritten (FSTree.dir []) none true "").1 rfl rfl

/-! ### C7: staging idempotence over a global file store -/

/-- A global store of files: absolute path (list of components) to file
contents. This finer-grained model of the file system makes the
delete-then-copy sequence of `copy_to_deploy` and any aliasing between the
source and deploy paths explicit. -/
abbrev FileStore := List (FsPath × String)

/-- The files at or under `base`, keyed by their path relative to `base`:
the observable contents of the directory `base`. -/
def filesUnder (base : FsPath) (fs : FileStore) : FileStore :=
  (fs.filter (fun e => base.isPrefixOf e.1)).map (fun e => (e.1.drop base.length, e.2))

/-- `shutil.rmtree(base)`: delete every file at or under `base` (worker.py
lines 118-119 guard this with an existence check; deleting nothing when
nothing is there makes the guard a no-op). -/
def rmtree (base : FsPath) (fs : FileStore) : FileStore :=
  fs.filter (fun e => !(base.isPrefixOf e.1))

/-- `copy_to_deploy` (worker.py lines 116-122): recursively delete the
deploy path, then `shutil.copytree` the source to it. The copy reads the
source from the post-delete store, as the real sequence does. -/
def copy_to_deploy (source deploy_path : FsPath) (fs : FileStore) : FileStore :=
  rmtree deploy_path fs
    ++ (filesUnder source (rmtree deploy_path fs)).map
        (fun e => (deploy_path ++ e.1, e.2))

/-- Bridge between the executable prefix test and the prefix relation. -/
theorem isPrefixOf_true_iff (a b : FsPath) : a.isPrefixOf b = true ↔ a <+: b :=
  List.isPrefixOf_iff_prefix

/-- `filesUnder` distributes over store concatenation. -/
theorem filesUnder_append (b : FsPath) (xs ys : FileStore) :
    filesUnder b (xs ++ ys) = filesUnder b xs ++ filesUnder b ys := by
  unfold filesUnder
  rw [List.filter_append, List.map_append]

/-- Nothing is left under the deploy path right after `rmtree`. -/
theorem filesUnder_dst_rmtree (dst : FsPath) (fs : FileStore) :
    filesUnder dst (rmtree dst fs) = [] := by
  unfold filesUnder rmtree
  rw [List.filter_filter]
  have h : fs.filter (fun e => dst.isPrefixOf e.1 && !(dst.isPrefixOf e.1))
      = fs.filter (fun _ => false) := by
    apply List.filter_congr
    intro e _
    cases hd : dst.isPrefixOf e.1 <;> simp [hd]
  rw [h, List.filter_false]
  rfl

/-- Reading back what the copy wrote under the deploy path recovers the
copied relative tree. -/
theorem filesUnder_dst_mapped (dst : FsPath) (L : FileStore) :
    filesUnder dst (L.map (fun e => (dst ++ e.1, e.2))) = L := by
  induction L with
  | nil => rfl
  | cons e L ih =>
    have hpre : dst.isPrefixOf (dst ++ e.1) = true :=
      (isPrefixOf_true_iff dst (dst ++ e.1)).mpr (List.prefix_append dst e.1)
    unfold filesUnder at ih ⊢
    simp only [List.map_cons, List.filter_cons, hpre, if_true, List.map_cons]
    rw [List.drop_left]
    simp [ih]

/-- `rmtree` distributes over store concatenation. -/
theorem rmtree_append (b : FsPath) (xs ys : FileStore) :
    rmtree b (xs ++ ys) = rmtree b xs ++ rmtree b ys := by
  unfold rmtree
  rw [List.filter_append]

/-- Deleting a subtree twice is the same as deleting it once. -/
theorem rmtree_idem (b : FsPath) (fs : FileStore) :
    rmtree b (rmtree b fs) = rmtree b fs := by
  unfold rmtree
  rw [List.filter_filter]
  apply List.filter_congr
  intro e _
  cases hd : b.isPrefixOf e.1 <;> simp [hd]

/-- Deleting the deploy subtree wipes out exactly what a copy wrote there. -/
theorem rmtree_dst_mapped (dst : FsPath) (L : FileStore) :
    rmtree dst (L.map (fun e => (dst ++ e.1, e.2))) = [] := by
  induction L with
  | nil => rfl
  | cons e L ih =>
    have hpre : dst.isPrefixOf (dst ++ e.1) = true :=
      (isPrefixOf_true_iff dst (dst ++ e.1)).mpr (List.prefix_append dst e.1)
    unfold rmtree at ih ⊢
    simp only [List.map_cons, List.filter_cons, hpre]
    simpa using ih

/-- After one staging run, the deploy contents are exactly the contents the
source had once the old deploy tree was removed. -/
theorem filesUnder_dst_copy (src dst : FsPath) (fs : FileStore) :
    filesUnder dst (copy_to_deploy src dst fs)
      = filesUnder src (rmtree dst fs) := by
  unfold copy_to_deploy
  rw [filesUnder_append, filesUnder_dst_rmtree, filesUnder_dst_mapped]
  rfl

/-- Deleting the deploy subtree of a staged store recovers the
deploy-deleted original: a staging run touches nothing outside the deploy
path, and what it put there the next `rmtree` removes. -/
theorem rmtree_copy_to_deploy (src dst : FsPath) (fs : FileStore) :
    rmtree dst (copy_to_deploy src dst fs) = rmtree dst fs := by
  unfold copy_to_deploy
  rw [rmtree_append, rmtree_idem, rmtree_dst_mapped, List.append_nil]

/-- Claim C7: staging is idempotent — for every source path, deploy path
and starting store, running `copy_to_deploy` twice against the same source
and deploy target yields identical deploy-target contents both times,
because each run deletes any existing target recursively and performs a
full recursive copy (wholesale replace, never merge). -/
theorem copy_to_deploy_idempotent (src dst : FsPath) (fs : FileStore) :
    filesUnder dst (copy_to_deploy src dst (copy_to_deploy src dst fs))
      = filesUnder dst (copy_to_deploy src dst fs) := by
  rw [filesUnder_dst_copy, filesUnder_dst_copy, rmtree_copy_to_deploy]

/-- Witness for C7 at a concrete store: the deploy path holds a stale file,
the source holds one page. -/
theorem copy_to_deploy_idempotent_witness :
    filesUnder ["deploy"]
        (copy_to_deploy ["site"] ["deploy"]
          (copy_to_deploy ["site"] ["deploy"]
            [(["site", "index.html"], "hello"), (["deploy", "old.txt"], "stale")]))
      = filesUnder ["deploy"]
          (copy_to_deploy ["site"] ["deploy"]
            [(["site", "index.html"], "hello"), (["deploy", "old.txt"], "stale")]) :=
  copy_to_deploy_idempotent ["site"] ["deploy"]
    [(["site", "index.html"], "hello"), (["deploy", "old.txt"], "stale")]
